import Mathlib

/-!
Verification of the UnionPacificAPI client (`union_pacific_api/__init__.py` and
`union_pacific_api/datatypes.py`) against its natural-language specification.

The Python source is shallowly embedded: datetimes are modelled as `Nat`
instants (the only operations the client performs on them are comparison,
adding the two-hour lifetime, rendering with `str`, and parsing with
`datetime.fromisoformat`), JSON values as an inductive type, exceptions as an
explicit `PyError` sum returned through `Except`, and the mutually recursive
`token` property getter / `_request_token` pair as a fuel-indexed state
machine whose fuel exhaustion models the Python `RecursionError`.
-/

set_option autoImplicit false

namespace UP

/-- Python exceptions that the embedded code can raise. `exception` is the
plain `Exception` class used throughout `__init__.py`; `typeError` and
`valueError` are the builtin classes raised by the runtime and by
`datetime.fromisoformat`; `missingValue` is the `dacite.MissingValueError`
raised by the JSON-to-dataclass mapping for an absent required field. -/
inductive PyError where
  | exception (msg : String)
  | typeError (msg : String)
  | valueError (msg : String)
  | missingValue (fieldPath : String)
  deriving DecidableEq, Repr

/-- JSON values, as produced by `resp.json()`. -/
inductive Json where
  | str (s : String)
  | num (n : Int)
  | bool (b : Bool)
  | null
  | arr (elems : List Json)
  | obj (members : List (String × Json))

/-- Rendering of a Python value inside an f-string: `None` renders as the
text `None`, a string renders as itself. -/
def pyStr : Option String → String
  | some s => s
  | none => "None"

/-! ### Model of `str(datetime)` / `datetime.fromisoformat`

The client renders a timestamp into the `.token` file with `str(datetime.now())`
and reads it back with `datetime.fromisoformat`. Instants are modelled as `Nat`
and the ISO-8601 text format is abstracted to the decimal rendering of the
instant. The model keeps the three properties the claims depend on: the
rendering is never the empty string, parsing inverts rendering exactly, and
parsing fails with `ValueError` on text that is not a rendered instant. -/

/-- The decimal digit character for `d < 10`. -/
def digitChar (d : Nat) : Char := Char.ofNat (48 + d)

/-- Little-endian decimal digits of a positive number. -/
def renderRev : Nat → List Char
  | 0 => []
  | n + 1 => digitChar ((n + 1) % 10) :: renderRev ((n + 1) / 10)
decreasing_by exact Nat.div_lt_self (Nat.succ_pos n) (by decide)

/-- Big-endian decimal digit characters of a number. -/
def natToChars (n : Nat) : List Char :=
  if n = 0 then ['0'] else (renderRev n).reverse

/-- Model of `str(dt)` for a datetime instant. -/
def str_datetime (t : Nat) : String := String.mk (natToChars t)

/-- Numeric value of a decimal digit character. -/
def charVal (c : Char) : Nat := c.toNat - 48

/-- Model of `datetime.fromisoformat` on the character list of the stored
text: accepts the rendered instants, rejecting any text containing a
non-digit character. -/
def parseChars (cs : List Char) : Option Nat :=
  if cs ≠ [] ∧ cs.all Char.isDigit then
    some (cs.foldl (fun a c => a * 10 + charVal c) 0)
  else none

/-- Model of `datetime.fromisoformat`: returns the parsed instant or raises
`ValueError` on malformed text. -/
def fromisoformat (s : String) : Except PyError Nat :=
  match parseChars s.data with
  | some n => Except.ok n
  | none => Except.error (PyError.valueError ("Invalid isoformat string: " ++ s))

theorem digitChar_isDigit {d : Nat} (h : d < 10) : (digitChar d).isDigit = true := by
  interval_cases d <;> decide

theorem charVal_digitChar {d : Nat} (h : d < 10) : charVal (digitChar d) = d := by
  interval_cases d <;> decide

theorem renderRev_ne_nil {n : Nat} (h : n ≠ 0) : renderRev n ≠ [] := by
  cases n with
  | zero => exact absurd rfl h
  | succ m => rw [renderRev]; exact List.cons_ne_nil _ _

theorem renderRev_all_digits (n : Nat) : (renderRev n).all Char.isDigit = true := by
  induction n using Nat.strong_induction_on with
  | _ n ih =>
    cases n with
    | zero => rw [renderRev]; rfl
    | succ m =>
      rw [renderRev, List.all_cons]
      simp only [Bool.and_eq_true]
      exact ⟨digitChar_isDigit (Nat.mod_lt _ (by decide)),
        ih ((m + 1) / 10) (Nat.div_lt_self (Nat.succ_pos m) (by decide))⟩

theorem renderRev_foldr (n : Nat) :
    (renderRev n).foldr (fun c a => a * 10 + charVal c) 0 = n := by
  induction n using Nat.strong_induction_on with
  | _ n ih =>
    cases n with
    | zero => rw [renderRev]; rfl
    | succ m =>
      rw [renderRev, List.foldr_cons,
        ih ((m + 1) / 10) (Nat.div_lt_self (Nat.succ_pos m) (by decide)),
        charVal_digitChar (Nat.mod_lt _ (by decide))]
      omega

theorem natToChars_ne_nil (n : Nat) : natToChars n ≠ [] := by
  unfold natToChars
  split
  · exact List.cons_ne_nil _ _
  · intro hc
    exact renderRev_ne_nil (by assumption) (List.reverse_eq_nil_iff.mp hc)

theorem natToChars_all_digits (n : Nat) : (natToChars n).all Char.isDigit = true := by
  unfold natToChars
  split
  · rfl
  · rw [List.all_reverse]; exact renderRev_all_digits n

/-- Round trip of the datetime text model: parsing a rendered instant gives
back the instant. -/
theorem parseChars_natToChars (n : Nat) : parseChars (natToChars n) = some n := by
  rw [parseChars, if_pos ⟨natToChars_ne_nil n, natToChars_all_digits n⟩]
  congr 1
  unfold natToChars
  split
  · next h => subst h; rfl
  · rw [List.foldl_reverse]
    exact renderRev_foldr n

theorem fromisoformat_str_datetime (t : Nat) :
    fromisoformat (str_datetime t) = Except.ok t := by
  rw [fromisoformat, str_datetime]
  show (match parseChars (natToChars t) with
    | some n => Except.ok n
    | none => Except.error (PyError.valueError ("Invalid isoformat string: " ++ String.mk (natToChars t)))) = Except.ok t
  rw [parseChars_natToChars]

theorem str_datetime_ne_empty (t : Nat) : str_datetime t ≠ "" := by
  intro hc
  exact natToChars_ne_nil t (congrArg String.data hc)

/-! ### Token cache state (`UPClient.__init__`, `token` property, `_request_token`)

`UPClient` keeps the bearer token in `self._tk` (a string or `None`), its
issuance instant in `self._tk_datetime`, and persists both into the two
entries `UP_TOKEN` / `UP_TOKEN_TIMESTAMP` of the `.token` file via
`dotenv.set_key`. -/

/-- The two named entries of the `.token` key-value file. `none` models an
entry that is absent from the file. -/
structure TokenFile where
  token : Option String
  timestamp : Option String
  deriving DecidableEq, Repr

/-- Possible values of `self._tk_datetime`: `unset` is the Python `None` it
is initialised to, `dt` a datetime object, and `emptyStr` the empty string
the token setter assigns when storing a falsy token. -/
inductive PyDatetimeVal where
  | unset
  | dt (t : Nat)
  | emptyStr
  deriving DecidableEq, Repr

/-- The mutable token state of a `UPClient` instance together with the
backing `.token` file. -/
structure ClientState where
  tk : Option String
  tkDatetime : PyDatetimeVal
  file : TokenFile
  forceNewToken : Bool
  deriving DecidableEq, Repr

/-- Python truthiness of `self._tk`: `None` and the empty string are falsy. -/
def pyTruthy : Option String → Bool
  | some s => s ≠ ""
  | none => false

/-- Documented token lifetime, the `timedelta(hours=2)` of the getter, in
seconds. -/
def TOKEN_LIFETIME : Nat := 7200

/-- The `token` property setter: when the new value differs from the cached
one it writes `str(datetime.now())` (or the empty string for a falsy token)
into `UP_TOKEN_TIMESTAMP`, records the same value in `self._tk_datetime`,
writes the token into `UP_TOKEN`, and caches it in `self._tk`; when the value
is unchanged it does nothing at all. -/
def set_token (st : ClientState) (now : Nat) (tk : String) : ClientState :=
  if st.tk ≠ some tk then
    { st with
      file := { token := some tk,
                timestamp := some (if tk ≠ "" then str_datetime now else "") }
      tkDatetime := if tk ≠ "" then PyDatetimeVal.dt now else PyDatetimeVal.emptyStr
      tk := some tk }
  else st

/-- One OAuth token-exchange response: the HTTP status together with the
`access_token` member of the JSON body (`none` when the member is absent). -/
structure OAuthResp where
  status_code : Nat
  access_token : Option String
  deriving DecidableEq, Repr

/-- Result of reading the `token` property: the state after the read, the
value the property returned, and the index of the next unconsumed exchange
response (so the number of exchanges performed is the index difference). -/
abbrev TokenReadResult := ClientState × Option String × Nat

mutual

/-- The `token` property getter. `resps` is the stream of responses the OAuth
endpoint would give to successive POST exchanges and `i` the index of the
next one; `fuel` bounds the Python call-stack depth, its exhaustion modelling
the `RecursionError` the interpreter raises on unbounded recursion. When the
cached token is truthy and `self._tk_datetime` is not a datetime the
comparison with `now` raises `TypeError`, exactly as `None + timedelta` or
`str + timedelta` would. -/
def token_get : Nat → ClientState → Nat → (Nat → OAuthResp) → Nat →
    Except PyError TokenReadResult
  | 0, _, _, _, _ => Except.error (PyError.exception "RecursionError")
  | fuel + 1, st, now, resps, i =>
    if pyTruthy st.tk then
      match st.tkDatetime with
      | PyDatetimeVal.dt t =>
        if now > t + TOKEN_LIFETIME then
          match request_token fuel st now resps i with
          | Except.ok (st1, v, i1) => Except.ok ({ st1 with tk := v }, v, i1)
          | Except.error e => Except.error e
        else Except.ok (st, st.tk, i)
      | _ => Except.error (PyError.typeError
          "unsupported operand type(s) for +: tk_datetime and timedelta")
    else
      match request_token fuel st now resps i with
      | Except.ok (st1, v, i1) => Except.ok ({ st1 with tk := v }, v, i1)
      | Except.error e => Except.error e

/-- `UPClient._request_token`: POST the credentials to the OAuth endpoint,
raise on a non-200 status, read `access_token` from the JSON body (`KeyError`
when absent), assign it through the `token` setter, and return `self.token`,
which re-enters the property getter. -/
def request_token : Nat → ClientState → Nat → (Nat → OAuthResp) → Nat →
    Except PyError TokenReadResult
  | 0, _, _, _, _ => Except.error (PyError.exception "RecursionError")
  | fuel + 1, st, now, resps, i =>
    let resp := resps i
    if resp.status_code ≠ 200 then
      Except.error (PyError.exception
        ("Token request failed. Status Code: " ++ toString resp.status_code))
    else
      match resp.access_token with
      | none => Except.error (PyError.exception "KeyError: access_token")
      | some atk => token_get fuel (set_token st now atk) now resps (i + 1)

end

/-- Truthiness of a cached non-empty token. -/
theorem pyTruthy_some {s : String} (h : s ≠ "") : pyTruthy (some s) = true := by
  simp [pyTruthy, h]

/-- C1: for a client whose cached token is non-empty and whose issuance
instant lies within the last two hours, a read of the `token` property
returns the cached value, consumes no exchange response (zero network
calls), and leaves the state unchanged — so every repeated read within the
window behaves identically. -/
theorem token_read_cached_no_exchange (fuel : Nat) (st : ClientState)
    (now t : Nat) (s : String) (resps : Nat → OAuthResp) (i : Nat)
    (h1 : st.tk = some s) (h2 : s ≠ "") (h3 : st.tkDatetime = PyDatetimeVal.dt t)
    (_h4 : t ≤ now) (h5 : now ≤ t + TOKEN_LIFETIME) :
    token_get (fuel + 1) st now resps i = Except.ok (st, some s, i) := by
  rw [token_get, h1, h3, pyTruthy_some h2]
  simp only [if_true]
  rw [if_neg (by omega)]

theorem token_read_cached_no_exchange_witness :
    token_get 1 ⟨some "TOK", PyDatetimeVal.dt 100, ⟨some "TOK", some (str_datetime 100)⟩, false⟩
      200 (fun _ => ⟨200, some "OTHER"⟩) 0 =
    Except.ok (⟨some "TOK", PyDatetimeVal.dt 100, ⟨some "TOK", some (str_datetime 100)⟩, false⟩,
      some "TOK", 0) :=
  token_read_cached_no_exchange 0 _ 200 100 "TOK" _ 0 rfl (by decide) rfl
    (by decide) (by decide)

/-- C2 (amended): for a client whose cached token is absent (falsy) or
present but issued more than two hours ago, a single read of the `token`
property performs exactly one exchange (consumes exactly response `i`),
stores the returned `access_token` together with a fresh issuance instant in
memory and in the `.token` file, and returns it — provided the response is a
200 whose `access_token` is non-empty and different from the cached value. -/
theorem token_read_stale_single_exchange (fuel : Nat) (st : ClientState)
    (now : Nat) (resps : Nat → OAuthResp) (i : Nat) (a : String)
    (hstale : pyTruthy st.tk = false ∨
      ∃ t, st.tkDatetime = PyDatetimeVal.dt t ∧ now > t + TOKEN_LIFETIME)
    (hresp : resps i = ⟨200, some a⟩) (ha : a ≠ "") (hdiff : st.tk ≠ some a) :
    token_get (fuel + 3) st now resps i =
      Except.ok ({ tk := some a, tkDatetime := PyDatetimeVal.dt now,
                   file := ⟨some a, some (str_datetime now)⟩,
                   forceNewToken := st.forceNewToken }, some a, i + 1) := by
  have hset : set_token st now a =
      { tk := some a, tkDatetime := PyDatetimeVal.dt now,
        file := ⟨some a, some (str_datetime now)⟩,
        forceNewToken := st.forceNewToken } := by
    rw [set_token, if_pos hdiff]
    simp [ha]
  have hinner : token_get (fuel + 1) (set_token st now a) now resps (i + 1) =
      Except.ok (set_token st now a, some a, i + 1) := by
    refine token_read_cached_no_exchange fuel _ now now a resps (i + 1) ?_ ha ?_
      (Nat.le_refl now) (Nat.le_add_right now TOKEN_LIFETIME)
    · rw [hset]
    · rw [hset]
  have hreq : request_token (fuel + 2) st now resps i =
      Except.ok (set_token st now a, some a, i + 1) := by
    rw [request_token, hresp]
    simp only [if_neg]
    exact hinner
  have houter : ∀ st1 v i1,
      request_token (fuel + 2) st now resps i = Except.ok (st1, v, i1) →
      token_get (fuel + 3) st now resps i = Except.ok ({ st1 with tk := v }, v, i1) := by
    intro st1 v i1 hr
    rw [token_get]
    rcases hstale with hfalsy | ⟨t, hdt, hlate⟩
    · rw [hfalsy]
      simp only [Bool.false_eq_true, if_false]
      rw [hr]
    · by_cases htr : pyTruthy st.tk = true
      · rw [htr]
        simp only [if_true, hdt]
        rw [if_pos hlate, hr]
      · rw [Bool.eq_false_iff.mpr htr]
        simp only [Bool.false_eq_true, if_false]
        rw [hr]
  have := houter _ _ _ hreq
  rw [this, hset]

theorem token_read_stale_single_exchange_witness :
    token_get 3 ⟨some "OLD", PyDatetimeVal.dt 0, ⟨some "OLD", some (str_datetime 0)⟩, false⟩
      8000 (fun _ => ⟨200, some "NEW"⟩) 0 =
    Except.ok (⟨some "NEW", PyDatetimeVal.dt 8000, ⟨some "NEW", some (str_datetime 8000)⟩, false⟩,
      some "NEW", 1) :=
  token_read_stale_single_exchange 0 _ 8000 _ 0 "NEW"
    (Or.inr ⟨0, rfl, by decide⟩) rfl (by decide) (by decide)

/-- C2 (counterexample): when the stale cached token equals the
`access_token` the endpoint returns, the setter skips the write, the
issuance instant stays stale, and the getter re-exchanges unboundedly: with
call-stack fuel 10 (and as many responses as asked for) the read ends in
`RecursionError` instead of performing exactly one exchange — the claimed
single-exchange contract fails on this input. -/
theorem token_read_stale_repeat_counterexample :
    (pyTruthy (some "T") = true ∧ 8000 > 0 + TOKEN_LIFETIME) ∧
    token_get 10 ⟨some "T", PyDatetimeVal.dt 0, ⟨some "T", some (str_datetime 0)⟩, false⟩
      8000 (fun _ => ⟨200, some "T"⟩) 0 =
    Except.error (PyError.exception "RecursionError") := by
  constructor
  · exact ⟨by decide, by decide⟩
  · rfl

/-! ### Token store loading (`UPClient._load_env_token`) -/

/-- `UPClient._load_env_token`: `dotenv.load_dotenv` registers the entries of
the `.token` file into the process environment without overriding entries
already present, and `os.getenv` reads the merged environment (`envToken` /
`envTimestamp` are the pre-existing environment entries). When the timestamp
text is truthy and `force_new_token` was not requested, it is parsed with
`datetime.fromisoformat` — which raises `ValueError` on malformed text, a
failure this method does not catch — and then the token entry is cached. -/
def load_env_token (st : ClientState) (envToken envTimestamp : Option String) :
    Except PyError ClientState :=
  let ts := envTimestamp.orElse (fun _ => st.file.timestamp)
  let tok := envToken.orElse (fun _ => st.file.token)
  match ts with
  | some s =>
    if s ≠ "" ∧ st.forceNewToken = false then
      match fromisoformat s with
      | Except.ok d =>
          Except.ok { st with tkDatetime := PyDatetimeVal.dt d, tk := tok }
      | Except.error e => Except.error e
    else Except.ok st
  | none => Except.ok st

/-- Construction of a new `UPClient` (credentials passed explicitly,
`force_new_token` left `False`) in a fresh process whose environment has no
`UP_TOKEN` / `UP_TOKEN_TIMESTAMP` entries, when the `.token` file already
exists: `__init__` initialises `_tk` and `_tk_datetime` to `None` and calls
`_load_env_token`. -/
def fresh_client_load (file : TokenFile) : Except PyError ClientState :=
  load_env_token
    { tk := none, tkDatetime := PyDatetimeVal.unset, file := file, forceNewToken := false }
    none none

/-- C3 (amended): loading the token store in a fresh environment leaves the
in-memory token unset without raising when the stored timestamp entry is
absent or empty, regardless of the stored token string; but when the
timestamp entry is non-empty text that does not parse as an ISO-8601
instant, `_load_env_token` propagates the `ValueError` from
`datetime.fromisoformat` instead of treating the token as unset. -/
theorem load_env_token_spec (st : ClientState) (envToken : Option String)
    (h0 : st.tk = none) (hf : st.forceNewToken = false) :
    ((st.file.timestamp = none ∨ st.file.timestamp = some "") →
      load_env_token st envToken none = Except.ok st ∧ st.tk = none) ∧
    (∀ s e, st.file.timestamp = some s → s ≠ "" → fromisoformat s = Except.error e →
      load_env_token st envToken none = Except.error e) := by
  constructor
  · rintro (h | h) <;>
      simp [load_env_token, Option.orElse, h, h0]
  · intro s e hs hne hparse
    simp [load_env_token, Option.orElse, hs, hne, hf, hparse]

theorem load_env_token_spec_witness :
    (load_env_token ⟨none, PyDatetimeVal.unset, ⟨some "TOK", some ""⟩, false⟩ none none =
        Except.ok ⟨none, PyDatetimeVal.unset, ⟨some "TOK", some ""⟩, false⟩ ∧
      (⟨none, PyDatetimeVal.unset, ⟨some "TOK", some ""⟩, false⟩ : ClientState).tk = none) ∧
    load_env_token ⟨none, PyDatetimeVal.unset, ⟨some "TOK", some "bad"⟩, false⟩ none none =
      Except.error (PyError.valueError "Invalid isoformat string: bad") :=
  ⟨(load_env_token_spec _ none rfl rfl).1 (Or.inr rfl),
    (load_env_token_spec _ none rfl rfl).2 "bad"
      (PyError.valueError "Invalid isoformat string: bad") rfl (by decide) rfl⟩

/-- C3 (counterexample): a store whose timestamp entry holds text that is not
an ISO-8601 instant makes the load raise `ValueError` — the claim said the
load returns Unset without raising. -/
theorem load_env_token_counterexample :
    fresh_client_load ⟨some "TOK", some "garbage"⟩ =
      Except.error (PyError.valueError "Invalid isoformat string: garbage") := by
  rfl

/-- C6 (amended): saving a non-empty token value that differs from the
cached one and re-loading the resulting store from a fresh client yields the
same token value with the saved issuance instant. -/
theorem save_load_roundtrip (st : ClientState) (now : Nat) (s : String)
    (hs : s ≠ "") (hdiff : st.tk ≠ some s) :
    ∃ st1, fresh_client_load ((set_token st now s).file) = Except.ok st1 ∧
      st1.tk = some s ∧ st1.tkDatetime = PyDatetimeVal.dt now := by
  have hfile : (set_token st now s).file = ⟨some s, some (str_datetime now)⟩ := by
    rw [set_token, if_pos hdiff]
    simp [hs]
  refine ⟨{ tk := some s, tkDatetime := PyDatetimeVal.dt now,
            file := ⟨some s, some (str_datetime now)⟩, forceNewToken := false },
    ?_, rfl, rfl⟩
  rw [hfile]
  simp [fresh_client_load, load_env_token, Option.orElse, str_datetime_ne_empty now,
    fromisoformat_str_datetime now]

theorem save_load_roundtrip_witness :
    ∃ st1,
      fresh_client_load ((set_token ⟨none, PyDatetimeVal.unset, ⟨none, none⟩, false⟩ 5 "T2").file) =
        Except.ok st1 ∧ st1.tk = some "T2" ∧ st1.tkDatetime = PyDatetimeVal.dt 5 :=
  save_load_roundtrip _ 5 "T2" (by decide) (by decide)

/-- C6 (counterexample): the round trip fails for the empty token value —
saving it writes an empty timestamp, so a fresh load leaves the token unset
(`None`) rather than yielding a token whose value equals the saved empty
string. -/
theorem save_load_roundtrip_counterexample :
    fresh_client_load ((set_token ⟨none, PyDatetimeVal.unset, ⟨none, none⟩, false⟩ 5 "").file) =
      Except.ok ⟨none, PyDatetimeVal.unset, ⟨some "", some ""⟩, false⟩ ∧
    (none : Option String) ≠ some "" := by
  exact ⟨rfl, by decide⟩

/-! ### Route data model (`union_pacific_api/datatypes.py`) -/

/-- The `Location` dataclass. -/
structure Location where
  id : String
  city : String
  state_abbreviation : String
  country_abbreviation : Option String := none
  type_code : Option String := none
  splc : Option String := none
  postal_code : Option String := none
  latitude : Option Float := none
  longitude : Option Float := none

/-- The `CarrierLocation` dataclass. -/
structure CarrierLocation where
  location : Location
  carrier : Option String := none
  junction_abbreviation : Option String := none

/-- The `Segment` dataclass; the source names its second field `end`, a
reserved word here. -/
structure Segment where
  beginning : CarrierLocation
  end_ : CarrierLocation
  mileage : Float
  carrier : Option String := none

/-- The `RouteMileage` dataclass. -/
structure RouteMileage where
  mileage : Float
  route_segments : Option (List Segment) := none
  type_code : Option String := none

/-- The `Route` dataclass, with its derived `route_str` field. An element of
`route_str` is `none` when the Python loop left `route_str` holding `None`
(a first segment whose `carrier` is `None`, never overwritten). -/
structure Route where
  origin : CarrierLocation
  destination : CarrierLocation
  route_mileages : Option (List RouteMileage) := none
  id : Option String := none
  junctions : Option (List CarrierLocation) := none
  last_accomplished_event_stop : Option CarrierLocation := none
  route_str : List (Option String)

/-- The inner loop of `Route.__post_init__` over the segments of one mileage
entry: `prev` is `prev_rr` and `acc` is `route_str`, each `none` modelling
the Python `None`. When `prev` is a string, `acc` is always a string too —
see the first match arm, the only place `prev` becomes a string — so the
`Option.map` in the append arm never silently skips a `None` that Python
would have crashed on. -/
def route_segment_scan : Option String → Option String → List Segment → Option String
  | _, acc, [] => acc
  | none, _, seg :: rest => route_segment_scan seg.carrier seg.carrier rest
  | some p, acc, seg :: rest =>
    if some p ≠ seg.carrier then
      route_segment_scan seg.carrier
        (if p = "UP" then
          acc.map (fun a =>
            a ++ "-" ++ pyStr seg.beginning.junction_abbreviation ++ "-" ++ pyStr seg.carrier)
        else acc) rest
    else route_segment_scan (some p) acc rest

/-- Processing of one mileage entry by `Route.__post_init__`: iterating
`mileage.route_segments` raises `TypeError` when that optional field is
`None`. -/
def route_mileage_interchange (m : RouteMileage) : Except PyError (Option String) :=
  match m.route_segments with
  | none => Except.error (PyError.typeError "argument of type NoneType is not iterable")
  | some segs => Except.ok (route_segment_scan none (some "") segs)

/-- The outer loop of `Route.__post_init__`, collecting one interchange
string per mileage entry in order. -/
def build_route_strs : List RouteMileage → Except PyError (List (Option String))
  | [] => Except.ok []
  | m :: rest =>
    match route_mileage_interchange m with
    | Except.ok s => (build_route_strs rest).map (fun tl => s :: tl)
    | Except.error e => Except.error e

/-- Construction of a `Route` (dataclass init followed by `__post_init__`):
`route_str` stays empty when `route_mileages` is falsy (`None` or the empty
list). -/
def mk_route (origin destination : CarrierLocation)
    (route_mileages : Option (List RouteMileage)) (id : Option String)
    (junctions : Option (List CarrierLocation))
    (last_accomplished_event_stop : Option CarrierLocation) : Except PyError Route :=
  let strs : Except PyError (List (Option String)) :=
    match route_mileages with
    | some (m :: ms) => build_route_strs (m :: ms)
    | _ => Except.ok []
  strs.map (fun rs =>
    ⟨origin, destination, route_mileages, id, junctions, last_accomplished_event_stop, rs⟩)

theorem build_route_strs_error {l : List RouteMileage} {m : RouteMileage}
    (hm : m ∈ l) (hnone : m.route_segments = none) :
    build_route_strs l =
      Except.error (PyError.typeError "argument of type NoneType is not iterable") := by
  induction l with
  | nil => cases hm
  | cons a as ih =>
    rw [build_route_strs]
    rcases List.mem_cons.mp hm with rfl | hmem
    · rw [route_mileage_interchange, hnone]
    · cases ha : a.route_segments with
      | none => rw [route_mileage_interchange, ha]
      | some segs =>
        rw [route_mileage_interchange, ha, ih hmem]
        rfl

theorem build_route_strs_total {l : List RouteMileage}
    (h : ∀ m ∈ l, m.route_segments ≠ none) :
    ∃ rs, build_route_strs l = Except.ok rs := by
  induction l with
  | nil => exact ⟨[], rfl⟩
  | cons a as ih =>
    obtain ⟨rs, hrs⟩ := ih (fun m hm => h m (List.mem_cons_of_mem a hm))
    cases ha : a.route_segments with
    | none => exact absurd ha (h a (List.mem_cons_self a as))
    | some segs =>
      refine ⟨route_segment_scan none (some "") segs :: rs, ?_⟩
      rw [build_route_strs, route_mileage_interchange, ha, hrs]
      rfl

/-- C10: constructing a `Route` whose `route_mileages` list contains an
entry with `route_segments` left at its `None` default makes
`__post_init__` iterate over `None` and fail with an untyped `TypeError`
(not one of the mapping-taxonomy errors and not a record); construction
succeeds whenever every present mileage entry carries a (possibly empty)
segment list. -/
theorem route_construction_totality (origin destination : CarrierLocation)
    (id : Option String) (junctions : Option (List CarrierLocation))
    (ls : Option CarrierLocation) :
    (∀ (l : List RouteMileage) (m : RouteMileage), m ∈ l → m.route_segments = none →
      mk_route origin destination (some l) id junctions ls =
        Except.error (PyError.typeError "argument of type NoneType is not iterable")) ∧
    (∀ rms : Option (List RouteMileage),
      (∀ l, rms = some l → ∀ m ∈ l, m.route_segments ≠ none) →
      ∃ r, mk_route origin destination rms id junctions ls = Except.ok r) := by
  constructor
  · intro l m hm hnone
    cases l with
    | nil => cases hm
    | cons a as =>
      rw [mk_route]
      rw [build_route_strs_error hm hnone]
      rfl
  · intro rms hall
    cases rms with
    | none => exact ⟨_, rfl⟩
    | some l =>
      cases l with
      | nil => exact ⟨_, rfl⟩
      | cons a as =>
        obtain ⟨rs, hrs⟩ := build_route_strs_total (hall _ rfl)
        rw [mk_route, hrs]
        exact ⟨_, rfl⟩

/-- A location literal used by the concrete route scenarios. -/
def demoLocation : Location := ⟨"L1", "TestCity", "TS", none, none, none, none, none, none⟩

/-- A segment literal with the given carrier and junction abbreviation of
its beginning. -/
def demoSegment (carrier junction : Option String) : Segment :=
  ⟨⟨demoLocation, carrier, junction⟩, ⟨demoLocation, carrier, none⟩, 0, carrier⟩

theorem route_construction_totality_witness :
    mk_route ⟨demoLocation, some "UP", none⟩ ⟨demoLocation, some "UP", none⟩
        (some [⟨0, none, none⟩]) none none none =
      Except.error (PyError.typeError "argument of type NoneType is not iterable") ∧
    ∃ r, mk_route ⟨demoLocation, some "UP", none⟩ ⟨demoLocation, some "UP", none⟩
        (some [⟨0, some [], none⟩]) none none none = Except.ok r :=
  ⟨(route_construction_totality _ _ none none none).1 [⟨0, none, none⟩] ⟨0, none, none⟩
      (List.mem_singleton.mpr rfl) rfl,
    (route_construction_totality _ _ none none none).2 (some [⟨0, some [], none⟩])
      (by
        intro l hl m hm
        injection hl with h
        subst h
        rw [List.mem_singleton.mp hm]
        exact fun hc => by cases hc)⟩

/-- C4 (amended): for a route with one mileage entry whose ordered segments
carry the carriers `[UP, UP, BNSF, BNSF]`, the derived interchange string is
built from the beginning junction of the segment where the carrier change is
seen — the third segment, the first BNSF one. When that junction
abbreviation is `NORTH` the derived string for the mileage entry is
`UP-NORTH-BNSF`. -/
theorem route_interchange_string (origin destination : CarrierLocation)
    (id : Option String) (junctions : Option (List CarrierLocation))
    (ls : Option CarrierLocation) (s1 s2 s3 s4 : Segment) (mil : Float)
    (tc : Option String)
    (h1 : s1.carrier = some "UP") (h2 : s2.carrier = some "UP")
    (h3 : s3.carrier = some "BNSF") (h4 : s4.carrier = some "BNSF")
    (hj : s3.beginning.junction_abbreviation = some "NORTH") :
    ∃ r, mk_route origin destination (some [⟨mil, some [s1, s2, s3, s4], tc⟩])
        id junctions ls = Except.ok r ∧
      r.route_str = [some "UP-NORTH-BNSF"] := by
  have hscan : route_segment_scan none (some "") [s1, s2, s3, s4] =
      some "UP-NORTH-BNSF" := by
    rw [route_segment_scan, h1]
    rw [route_segment_scan, h2, if_neg (by simp)]
    rw [route_segment_scan, h3, if_pos (by simp), if_pos rfl, hj]
    rw [route_segment_scan, h4, if_neg (by simp)]
    rfl
  rw [mk_route, build_route_strs, route_mileage_interchange]
  simp only [hscan]
  exact ⟨_, rfl, rfl⟩

theorem route_interchange_string_witness :
    ∃ r, mk_route ⟨demoLocation, some "UP", none⟩ ⟨demoLocation, some "BNSF", none⟩
        (some [⟨0, some [demoSegment (some "UP") none,
                         demoSegment (some "UP") none,
                         demoSegment (some "BNSF") (some "NORTH"),
                         demoSegment (some "BNSF") none], none⟩])
        none none none = Except.ok r ∧
      r.route_str = [some "UP-NORTH-BNSF"] :=
  route_interchange_string _ _ none none none _ _ _ _ 0 none rfl rfl rfl rfl rfl

/-- C4 (counterexample): in a mileage entry with carriers
`[UP, UP, BNSF, BNSF]` whose SECOND segment has beginning junction `NORTH`
while the third segment (where the carrier changes) has beginning junction
`SOUTH`, the derived string is `UP-SOUTH-BNSF`, not the `UP-NORTH-BNSF` the
claim states: the junction used is the one of the segment whose carrier
differs from the previous one, not the second segment. -/
theorem route_interchange_string_counterexample :
    route_segment_scan none (some "")
        [demoSegment (some "UP") none,
         demoSegment (some "UP") (some "NORTH"),
         demoSegment (some "BNSF") (some "SOUTH"),
         demoSegment (some "BNSF") none] = some "UP-SOUTH-BNSF" ∧
    some "UP-SOUTH-BNSF" ≠ some "UP-NORTH-BNSF" := by
  exact ⟨rfl, by decide⟩

/-! ### Substring occurrence -/

/-- Whether `pat` occurs at the head of `l`. -/
def listStartsWith : List Char → List Char → Bool
  | _, [] => true
  | [], _ :: _ => false
  | c :: cs, d :: ds => c == d && listStartsWith cs ds

/-- Whether `pat` occurs contiguously anywhere in `l`. -/
def listContainsSub (l pat : List Char) : Bool :=
  listStartsWith l pat ||
    match l with
    | [] => false
    | _ :: cs => listContainsSub cs pat

/-- Whether the text `sub` occurs contiguously in the text `s`. -/
def strOccurs (s sub : String) : Bool := listContainsSub s.data sub.data

theorem listStartsWith_append (pat rest : List Char) :
    listStartsWith (pat ++ rest) pat = true := by
  induction pat with
  | nil => cases rest <;> rfl
  | cons c cs ih =>
    rw [List.cons_append, listStartsWith, ih]
    simp

theorem listContainsSub_of_startsWith {l pat : List Char}
    (h : listStartsWith l pat = true) : listContainsSub l pat = true := by
  cases l <;> (rw [listContainsSub, h]; rfl)

theorem listContainsSub_append_left (a : List Char) {l pat : List Char}
    (h : listContainsSub l pat = true) : listContainsSub (a ++ l) pat = true := by
  induction a with
  | nil => exact h
  | cons c cs ih =>
    rw [List.cons_append, listContainsSub, ih]
    simp

/-- A text occurs in any text of which it is the middle part. -/
theorem strOccurs_middle (a sub b : String) : strOccurs (a ++ sub ++ b) sub = true := by
  rw [strOccurs, String.data_append, String.data_append]
  rw [List.append_assoc]
  exact listContainsSub_append_left a.data
    (listContainsSub_of_startsWith (listStartsWith_append sub.data b.data))

/-! ### URL construction (`UPClient.endpoint_builder` and the endpoint constants) -/

def base_url : String := "https://customer.api.up.com"
def route_endpoint : String := "/services/v2/routes"
def locations_endpoint : String := "/services/v2/locations"
def shipments_endpoint : String := "/services/v2/shipments"
def cases_endpoint : String := "/services/v2/cases"
def waybill_endpoint : String := "/services/v2/waybills"
def equipment_endpoint : String := "/services/v2/equipment"
def oauth_endpoint : String := "/oauth/token"

/-- A keyword-argument value of `endpoint_builder`: a string or a list of
strings (the two kinds the resource methods pass besides `None`). -/
inductive PyVal where
  | vstr (s : String)
  | vlist (l : List String)

/-- The uppercase hexadecimal digit for `d < 16`, as `urllib` uses in
percent-escapes. -/
def hexDigit (d : Nat) : Char :=
  if d < 10 then Char.ofNat (48 + d) else Char.ofNat (55 + d)

/-- `urllib.parse.quote_plus` on one character: alphanumerics and `_.-~`
pass through, a space becomes `+`, anything else (here restricted to ASCII,
the only inputs the client produces) a `%XX` escape. -/
def quote_plus_char (c : Char) : String :=
  if c.isAlphanum || c == '_' || c == '.' || c == '-' || c == '~' then
    String.singleton c
  else if c == ' ' then "+"
  else String.mk ['%', hexDigit (c.toNat / 16 % 16), hexDigit (c.toNat % 16)]

/-- `urllib.parse.quote_plus` on a string. -/
def quote_plus (s : String) : String := String.join (s.data.map quote_plus_char)

/-- `urllib.parse.urlencode`: key/value pairs quoted and joined with `=` and
`&`, in insertion order. -/
def urlencode (params : List (String × String)) : String :=
  String.intercalate "&" (params.map (fun kv => quote_plus kv.1 ++ "=" ++ quote_plus kv.2))

/-- The value stored into the `param` dict for one non-`None` keyword
argument: a list collapses to one comma-joined string. -/
def param_value : PyVal → String
  | PyVal.vstr s => s
  | PyVal.vlist l => String.intercalate "," l

/-- `UPClient.endpoint_builder`: when keyword arguments were passed (even if
all of them are `None`) the URL gets a `?` followed by the encoding of the
non-`None` ones; with no keyword arguments at all it is just base plus
endpoint. -/
def endpoint_builder (endpoint : String) (kwargs : List (String × Option PyVal)) : String :=
  match kwargs with
  | [] => base_url ++ endpoint
  | _ :: _ =>
    base_url ++ endpoint ++ "?" ++
      urlencode (kwargs.filterMap (fun kv => kv.2.map (fun v => (kv.1, param_value v))))

/-- `UPClient.get_waybills`: builds its URL from `self.cases_endpoint` (the
literal written in the source), passing `shipment_id` and `equipment_id`. -/
def get_waybills_url (shipment_ids equipment_ids : Option (List String)) : String :=
  endpoint_builder cases_endpoint
    [("shipment_id", shipment_ids.map PyVal.vlist),
     ("equipment_id", equipment_ids.map PyVal.vlist)]

/-- C5: the waybill listing request is issued against the cases resource
path, not the waybill resource path — `get_waybills` passes
`self.cases_endpoint` to `endpoint_builder`, contradicting both the claim
and the method intent (`get_waybill_by_id` uses `self.waybill_endpoint`). -/
theorem get_waybills_url_uses_cases_path :
    get_waybills_url (some ["S1"]) none =
      "https://customer.api.up.com/services/v2/cases?shipment_id=S1" ∧
    strOccurs (get_waybills_url (some ["S1"]) none) waybill_endpoint = false ∧
    strOccurs (get_waybills_url (some ["S1"]) none) cases_endpoint = true := by
  refine ⟨by decide, by decide, by decide⟩

/-! ### Resource calls (`UPClient._call_api`) -/

/-- One HTTP response to a resource GET. -/
structure HttpResp where
  status_code : Nat
  text : String
  body : Json

/-- The message of the exception `_call_api` raises on an unexpected
status. -/
def call_api_err_msg (url : String) (r : HttpResp) : String :=
  "\nReceived unexpected response from UP API " ++ url ++ ";\nStatus Code: " ++
    toString r.status_code ++ ";\nResponse: " ++ r.text

/-- `UPClient._call_api`: returns the JSON body on status 200 or 206 and
raises on every other status, the message carrying the URL, the status code
and the response text. -/
def call_api (url : String) (r : HttpResp) : Except PyError Json :=
  if r.status_code = 200 ∨ r.status_code = 206 then Except.ok r.body
  else Except.error (PyError.exception (call_api_err_msg url r))

/-- C7 (amended): a resource call returns the parsed body exactly on status
200 or 206 and raises on every other status — including the other 2xx
statuses — with a message containing the URL, the status code and the
response body text. -/
theorem call_api_spec (url : String) (r : HttpResp) :
    (r.status_code = 200 ∨ r.status_code = 206 → call_api url r = Except.ok r.body) ∧
    (r.status_code ≠ 200 → r.status_code ≠ 206 →
      call_api url r = Except.error (PyError.exception (call_api_err_msg url r)) ∧
      strOccurs (call_api_err_msg url r) url = true ∧
      strOccurs (call_api_err_msg url r) (toString r.status_code) = true ∧
      strOccurs (call_api_err_msg url r) r.text = true) := by
  constructor
  · intro h
    rw [call_api, if_pos h]
  · intro h200 h206
    refine ⟨by rw [call_api, if_neg (by tauto)], ?_, ?_, ?_⟩
    · have : call_api_err_msg url r =
          "\nReceived unexpected response from UP API " ++ url ++
            (";\nStatus Code: " ++ toString r.status_code ++ ";\nResponse: " ++ r.text) := by
        rw [call_api_err_msg]
        simp [String.append_assoc]
      rw [this]
      exact strOccurs_middle _ _ _
    · have : call_api_err_msg url r =
          ("\nReceived unexpected response from UP API " ++ url ++ ";\nStatus Code: ") ++
            toString r.status_code ++ (";\nResponse: " ++ r.text) := by
        rw [call_api_err_msg]
        simp [String.append_assoc]
      rw [this]
      exact strOccurs_middle _ _ _
    · have : call_api_err_msg url r =
          ("\nReceived unexpected response from UP API " ++ url ++ ";\nStatus Code: " ++
            toString r.status_code ++ ";\nResponse: ") ++ r.text ++ "" := by
        simp [call_api_err_msg, String.append_assoc]
      rw [this]
      exact strOccurs_middle _ _ _

theorem call_api_spec_witness :
    call_api "https://customer.api.up.com/services/v2/routes" ⟨404, "Not Found", Json.null⟩ =
      Except.error (PyError.exception (call_api_err_msg
        "https://customer.api.up.com/services/v2/routes" ⟨404, "Not Found", Json.null⟩)) ∧
    strOccurs (call_api_err_msg "https://customer.api.up.com/services/v2/routes"
      ⟨404, "Not Found", Json.null⟩) "404" = true :=
  ⟨((call_api_spec _ _).2 (by decide) (by decide)).1,
    ((call_api_spec _ _).2 (by decide) (by decide)).2.2.1⟩

/-- C7 (counterexample): status 201 is a 2xx success status, yet `_call_api`
raises on it — the raise condition is status not in {200, 206}, not status
not 2xx. -/
theorem call_api_counterexample :
    (200 ≤ 201 ∧ 201 < 300) ∧
    call_api "https://customer.api.up.com/services/v2/routes" ⟨201, "Created", Json.null⟩ =
      Except.error (PyError.exception (call_api_err_msg
        "https://customer.api.up.com/services/v2/routes" ⟨201, "Created", Json.null⟩)) := by
  exact ⟨⟨by decide, by decide⟩, rfl⟩

/-! ### Record mapper (`UPClient._json_to_dataclass` over `dacite.from_dict`) -/

/-- One declared field of a target dataclass shape: its name and whether it
is required (no default value). -/
structure FieldSpec where
  name : String
  required : Bool

/-- A built dataclass instance: each declared field bound to a JSON value or
to its absent default. -/
abbrev DataRec := List (String × Option Json)

/-- The input of `_json_to_dataclass`: a single JSON object or a JSON array
of objects (the two shapes the remote API returns and the method handles). -/
inductive RespJson where
  | obj (members : List (String × Json))
  | arr (items : List (List (String × Json)))

/-- The output of `_json_to_dataclass`: one record or a list of records,
mirroring the input shape. -/
inductive Mapped where
  | single (r : DataRec)
  | many (rs : List DataRec)

/-- Modelled from the `dacite` library used by `_json_to_dataclass`:
`from_dict` walks the declared fields in order, binds present fields, uses
the default for absent optional fields, and raises `MissingValueError` with
the field path for the first absent required field. Type checking and
nested-dataclass casting are not modelled; no claim depends on them. -/
def from_dict : List FieldSpec → List (String × Json) → Except PyError DataRec
  | [], _ => Except.ok []
  | f :: rest, data =>
    match data.lookup f.name with
    | some v => (from_dict rest data).map (fun r => (f.name, some v) :: r)
    | none =>
      if f.required then Except.error (PyError.missingValue f.name)
      else (from_dict rest data).map (fun r => (f.name, none) :: r)

/-- The message of `dacite.MissingValueError`, as the library formats it. -/
def missing_value_msg (fieldPath : String) : String :=
  "missing value for field " ++ "\x22" ++ fieldPath ++ "\x22"

/-- The dict comprehension of `_json_to_dataclass`: keep only the members
whose key is a declared field of the target shape, in declared-field
order. -/
def filtered_data (spec : List FieldSpec) (item : List (String × Json)) :
    List (String × Json) :=
  spec.filterMap (fun f => (item.lookup f.name).map (fun v => (f.name, v)))

/-- The list branch of `_json_to_dataclass`: convert each array element in
order, appending to the result list; an exception from any element aborts
the whole conversion. -/
def map_records (spec : List FieldSpec) :
    List (List (String × Json)) → Except PyError (List DataRec)
  | [] => Except.ok []
  | item :: rest =>
    match from_dict spec (filtered_data spec item) with
    | Except.ok r => (map_records spec rest).map (fun rs => r :: rs)
    | Except.error e => Except.error e

/-- `UPClient._json_to_dataclass`. -/
def json_to_dataclass (spec : List FieldSpec) : RespJson → Except PyError Mapped
  | RespJson.obj o => (from_dict spec (filtered_data spec o)).map Mapped.single
  | RespJson.arr items => (map_records spec items).map Mapped.many

/-- The declared fields of the `Location` dataclass, in declaration order. -/
def locationFields : List FieldSpec :=
  [⟨"id", true⟩, ⟨"city", true⟩, ⟨"state_abbreviation", true⟩,
   ⟨"country_abbreviation", false⟩, ⟨"type_code", false⟩, ⟨"splc", false⟩,
   ⟨"postal_code", false⟩, ⟨"latitude", false⟩, ⟨"longitude", false⟩]

theorem map_records_ok {spec : List FieldSpec}
    {items : List (List (String × Json))} {rs : List DataRec}
    (h : map_records spec items = Except.ok rs) :
    rs.length = items.length ∧
      ∀ p ∈ items.zip rs, from_dict spec (filtered_data spec p.1) = Except.ok p.2 := by
  induction items generalizing rs with
  | nil =>
    rw [map_records] at h
    cases h
    exact ⟨rfl, by intro p hp; cases hp⟩
  | cons item rest ih =>
    rw [map_records] at h
    cases hfd : from_dict spec (filtered_data spec item) with
    | error e => rw [hfd] at h; cases h
    | ok r =>
      rw [hfd] at h
      cases hmr : map_records spec rest with
      | error e => rw [hmr] at h; cases h
      | ok rs1 =>
        rw [hmr] at h
        cases h
        obtain ⟨hlen, hzip⟩ := ih hmr
        refine ⟨by simpa using hlen, ?_⟩
        intro p hp
        rw [List.zip_cons_cons] at hp
        rcases List.mem_cons.mp hp with rfl | hmem
        · exact hfd
        · exact hzip p hmem

/-- C8: the output of `_json_to_dataclass` mirrors the input shape — a JSON
object that converts successfully yields exactly one record (the `from_dict`
image of its filtered members), and a JSON array of N objects that converts
successfully yields exactly N records, the i-th record being the conversion
of the i-th input object. -/
theorem json_to_dataclass_shape (spec : List FieldSpec) :
    (∀ o r, json_to_dataclass spec (RespJson.obj o) = Except.ok r →
      ∃ rec, r = Mapped.single rec ∧
        from_dict spec (filtered_data spec o) = Except.ok rec) ∧
    (∀ items r, json_to_dataclass spec (RespJson.arr items) = Except.ok r →
      ∃ rs, r = Mapped.many rs ∧ rs.length = items.length ∧
        ∀ p ∈ items.zip rs, from_dict spec (filtered_data spec p.1) = Except.ok p.2) := by
  constructor
  · intro o r h
    rw [json_to_dataclass] at h
    cases hfd : from_dict spec (filtered_data spec o) with
    | error e => rw [hfd] at h; cases h
    | ok rec =>
      rw [hfd] at h
      cases h
      exact ⟨rec, rfl, rfl⟩
  · intro items r h
    rw [json_to_dataclass] at h
    cases hmr : map_records spec items with
    | error e => rw [hmr] at h; cases h
    | ok rs =>
      rw [hmr] at h
      cases h
      obtain ⟨hlen, hzip⟩ := map_records_ok hmr
      exact ⟨rs, rfl, hlen, hzip⟩

theorem json_to_dataclass_shape_witness :
    ∃ rs, (Mapped.many [[("id", some (Json.str "A")), ("city", none)],
                        [("id", some (Json.str "B")), ("city", some (Json.str "C"))]]) =
        Mapped.many rs ∧
      rs.length = [[("id", Json.str "A"), ("extra", Json.bool true)],
                   [("city", Json.str "C"), ("id", Json.str "B")]].length ∧
      ∀ p ∈ List.zip [[("id", Json.str "A"), ("extra", Json.bool true)],
                      [("city", Json.str "C"), ("id", Json.str "B")]] rs,
        from_dict [⟨"id", true⟩, ⟨"city", false⟩]
          (filtered_data [⟨"id", true⟩, ⟨"city", false⟩] p.1) = Except.ok p.2 :=
  (json_to_dataclass_shape [⟨"id", true⟩, ⟨"city", false⟩]).2
    [[("id", Json.str "A"), ("extra", Json.bool true)],
     [("city", Json.str "C"), ("id", Json.str "B")]]
    (Mapped.many [[("id", some (Json.str "A")), ("city", none)],
                  [("id", some (Json.str "B")), ("city", some (Json.str "C"))]]) rfl

theorem filtered_lookup_or (spec : List FieldSpec) (o : List (String × Json)) (n : String) :
    (filtered_data spec o).lookup n = none ∨
      (filtered_data spec o).lookup n = o.lookup n := by
  induction spec with
  | nil => exact Or.inl rfl
  | cons f rest ih =>
    rw [filtered_data, List.filterMap_cons]
    cases ho : o.lookup f.name with
    | none =>
      simp only [ho, Option.map_none']
      exact ih
    | some v =>
      simp only [ho, Option.map_some']
      by_cases hn : n = f.name
      · subst hn
        rw [List.lookup_cons_self]  -- may need adjustment
        exact Or.inr ho.symm
      · rw [List.lookup]
        simp only [beq_eq_false_iff_ne.mpr hn]  -- may need adjustment
        exact ih

theorem filtered_lookup_mem {spec : List FieldSpec} {f : FieldSpec}
    (o : List (String × Json)) (hf : f ∈ spec) :
    (filtered_data spec o).lookup f.name = o.lookup f.name := by
  induction spec with
  | nil => cases hf
  | cons a rest ih =>
    rw [filtered_data, List.filterMap_cons]
    rcases List.mem_cons.mp hf with rfl | hmem
    · cases ho : o.lookup f.name with
      | none =>
        simp only [ho, Option.map_none']
        rcases filtered_lookup_or rest o f.name with h | h
        · exact h
        · exact h.trans ho
      | some v =>
        simp only [ho, Option.map_some']
        rw [List.lookup_cons_self]
    · cases ho : o.lookup a.name with
      | none =>
        simp only [ho, Option.map_none']
        exact ih hmem
      | some v =>
        simp only [ho, Option.map_some']
        by_cases hn : f.name = a.name
        · rw [List.lookup, hn]
          simp only [beq_self_eq_true]
          exact ho.symm
        · rw [List.lookup]
          simp only [beq_eq_false_iff_ne.mpr hn]
          exact ih hmem

theorem from_dict_missing {spec : List FieldSpec} {data : List (String × Json)}
    {f : FieldSpec} (hf : f ∈ spec) (hreq : f.required = true)
    (hmiss : data.lookup f.name = none) :
    ∃ g, g ∈ spec ∧ g.required = true ∧ data.lookup g.name = none ∧
      from_dict spec data = Except.error (PyError.missingValue g.name) := by
  induction spec with
  | nil => cases hf
  | cons a rest ih =>
    cases ha : data.lookup a.name with
    | some v =>
      have hfr : f ∈ rest := by
        rcases List.mem_cons.mp hf with rfl | h
        · rw [hmiss] at ha; cases ha
        · exact h
      obtain ⟨g, hg, hgr, hgm, hge⟩ := ih hfr
      refine ⟨g, List.mem_cons_of_mem a hg, hgr, hgm, ?_⟩
      rw [from_dict, ha, hge]
      rfl
    | none =>
      cases har : a.required with
      | true =>
        refine ⟨a, List.mem_cons_self a rest, har, ha, ?_⟩
        rw [from_dict, ha, if_pos har]
      | false =>
        have hfr : f ∈ rest := by
          rcases List.mem_cons.mp hf with rfl | h
          · rw [har] at hreq; cases hreq
          · exact h
        obtain ⟨g, hg, hgr, hgm, hge⟩ := ih hfr
        refine ⟨g, List.mem_cons_of_mem a hg, hgr, hgm, ?_⟩
        rw [from_dict, ha, if_neg (by rw [har]; exact Bool.false_ne_true), hge]
        rfl

/-- C9 (amended): mapping a JSON object that lacks a field the target shape
declares as required raises `dacite.MissingValueError` naming the missing
field (the message does not name the shape), and yields no record at all —
the conversion is all-or-nothing. -/
theorem json_to_dataclass_missing_required (spec : List FieldSpec)
    (o : List (String × Json)) (f : FieldSpec) (hf : f ∈ spec)
    (hreq : f.required = true) (hmiss : o.lookup f.name = none) :
    ∃ g, g ∈ spec ∧ g.required = true ∧ o.lookup g.name = none ∧
      json_to_dataclass spec (RespJson.obj o) =
        Except.error (PyError.missingValue g.name) ∧
      strOccurs (missing_value_msg g.name) g.name = true := by
  have hmiss2 : (filtered_data spec o).lookup f.name = none := by
    rw [filtered_lookup_mem o hf]
    exact hmiss
  obtain ⟨g, hg, hgr, hgm, hge⟩ := from_dict_missing hf hreq hmiss2
  refine ⟨g, hg, hgr, ?_, ?_, ?_⟩
  · rw [← filtered_lookup_mem o hg]
    exact hgm
  · rw [json_to_dataclass, hge]
    rfl
  · rw [missing_value_msg]
    exact strOccurs_middle _ _ _

theorem json_to_dataclass_missing_required_witness :
    ∃ g, g ∈ locationFields ∧ g.required = true ∧
      List.lookup g.name [("city", Json.str "Omaha")] = none ∧
      json_to_dataclass locationFields (RespJson.obj [("city", Json.str "Omaha")]) =
        Except.error (PyError.missingValue g.name) ∧
      strOccurs (missing_value_msg g.name) g.name = true :=
  json_to_dataclass_missing_required locationFields [("city", Json.str "Omaha")]
    ⟨"id", true⟩ (List.mem_cons_self _ _) rfl rfl

/-- C9 (counterexample): the error raised for an object lacking the required
`id` field of the `Location` shape carries the message of
`dacite.MissingValueError`, which names the field but nowhere contains the
shape name `Location` — the claim that the error names the shape fails. -/
theorem json_to_dataclass_missing_counterexample :
    json_to_dataclass locationFields (RespJson.obj [("city", Json.str "Omaha")]) =
      Except.error (PyError.missingValue "id") ∧
    strOccurs (missing_value_msg "id") "Location" = false ∧
    strOccurs (missing_value_msg "id") "id" = true := by
  refine ⟨rfl, by decide, by decide⟩
